import Mathlib

/-!
Shallow embedding of `jotformextended.py` (class `JotformExtendedClient`),
an HTTP client for the Jotform REST API, together with theorems about the
behaviour of client construction and request dispatch.

The embedding models:
  * the subdomain lookup tables and `__init__` (construction),
  * `_make_request` (URL/header/parameter assembly, dispatch, JSON decode),
  * `json.loads` as a JSON parser over the response text,
  * every public endpoint method as a call descriptor fed to the dispatcher.
-/

namespace Jotform

/-- A JSON value as produced by `json.loads`.  Number literals are kept as
their validated lexeme so that no floating-point arithmetic is involved. -/
inductive JsonValue where
  | null : JsonValue
  | bool (b : Bool) : JsonValue
  | num (lexeme : String) : JsonValue
  | str (s : String) : JsonValue
  | arr (elems : List JsonValue) : JsonValue
  | obj (fields : List (String × JsonValue)) : JsonValue
deriving Repr, BEq

/-- JSON whitespace characters, as accepted between tokens by `json.loads`. -/
def isJsonWs (c : Char) : Bool :=
  c == ' ' || c == '\t' || c == '\n' || c == '\r'

/-- Drop leading JSON whitespace. -/
def skipWs : List Char → List Char
  | [] => []
  | c :: cs => if isJsonWs c then skipWs cs else c :: cs

/-- Take a maximal run of decimal digits. -/
def takeDigits : List Char → List Char × List Char
  | [] => ([], [])
  | c :: cs =>
    if c.isDigit then
      let p := takeDigits cs
      (c :: p.1, p.2)
    else ([], c :: cs)

/-- Value of one hexadecimal digit. -/
def hexDigitVal (c : Char) : Option Nat :=
  if c.isDigit then some (c.toNat - 48)
  else if 'a' ≤ c ∧ c ≤ 'f' then some (c.toNat - 87)
  else if 'A' ≤ c ∧ c ≤ 'F' then some (c.toNat - 55)
  else none

/-- Read four hexadecimal digits (the `XXXX` of a `\uXXXX` escape). -/
def hex4 : List Char → Option (Nat × List Char)
  | a :: b :: c :: d :: rest =>
    match hexDigitVal a, hexDigitVal b, hexDigitVal c, hexDigitVal d with
    | some x, some y, some z, some w => some (((x * 16 + y) * 16 + z) * 16 + w, rest)
    | _, _, _, _ => none
  | _ => none

/-- Opening brace character (code point 123). -/
def lbrace : Char := Char.ofNat 123

/-- Closing brace character (code point 125). -/
def rbrace : Char := Char.ofNat 125

/-- Parse the body of a JSON string after the opening quote, decoding the
escape sequences accepted by `json.loads` (including `\uXXXX` and surrogate
pairs) and rejecting raw control characters, as the strict decoder does.
Returns the decoded characters and the remaining input. -/
def parseStrBody (fuel : Nat) (cs : List Char) : Option (List Char × List Char) :=
  match fuel with
  | 0 => none
  | fuel + 1 =>
    match cs with
    | [] => none
    | c :: rest =>
      if c = '"' then some ([], rest)
      else if c = '\\' then
        match rest with
        | [] => none
        | e :: rest2 =>
          let dec : Option (Char × List Char) :=
            if e = '"' then some ('"', rest2)
            else if e = '\\' then some ('\\', rest2)
            else if e = '/' then some ('/', rest2)
            else if e = 'b' then some (Char.ofNat 8, rest2)
            else if e = 'f' then some (Char.ofNat 12, rest2)
            else if e = 'n' then some ('\n', rest2)
            else if e = 'r' then some ('\r', rest2)
            else if e = 't' then some ('\t', rest2)
            else if e = 'u' then
              match hex4 rest2 with
              | none => none
              | some (n, rest3) =>
                if 55296 ≤ n ∧ n ≤ 56319 then
                  match rest3 with
                  | u1 :: u2 :: rest4 =>
                    if u1 = '\\' ∧ u2 = 'u' then
                      match hex4 rest4 with
                      | some (m, rest5) =>
                        if 56320 ≤ m ∧ m ≤ 57343 then
                          some (Char.ofNat (65536 + (n - 55296) * 1024 + (m - 56320)), rest5)
                        else some (Char.ofNat n, rest3)
                      | none => some (Char.ofNat n, rest3)
                    else some (Char.ofNat n, rest3)
                  | _ => some (Char.ofNat n, rest3)
                else some (Char.ofNat n, rest3)
            else none
          match dec with
          | none => none
          | some (ch, rest3) =>
            match parseStrBody fuel rest3 with
            | some (s, r) => some (ch :: s, r)
            | none => none
      else if c.toNat < 32 then none
      else
        match parseStrBody fuel rest with
        | some (s, r) => some (c :: s, r)
        | none => none

/-- Parse the fraction and exponent parts of a JSON number, extending the
lexeme accumulated so far. -/
def parseNumTail (acc : List Char) (cs : List Char) : Option (List Char × List Char) :=
  let fr : Option (List Char × List Char) :=
    match cs with
    | c :: r =>
      if c = '.' then
        let p := takeDigits r
        if p.1.isEmpty then none else some (acc ++ c :: p.1, p.2)
      else some (acc, cs)
    | [] => some (acc, [])
  match fr with
  | none => none
  | some (acc2, cs2) =>
    match cs2 with
    | c :: r =>
      if c = 'e' ∨ c = 'E' then
        let sgn : List Char × List Char :=
          match r with
          | s :: r3 => if s = '+' ∨ s = '-' then ([s], r3) else ([], r)
          | [] => ([], [])
        let p := takeDigits sgn.2
        if p.1.isEmpty then none else some (acc2 ++ c :: (sgn.1 ++ p.1), p.2)
      else some (acc2, cs2)
    | [] => some (acc2, [])

/-- Parse a JSON number and return its lexeme: optional minus sign, an
integer part with no leading zero, optional fraction, optional exponent. -/
def parseNum (cs : List Char) : Option (List Char × List Char) :=
  let start : List Char × List Char :=
    match cs with
    | c :: rest => if c = '-' then ([c], rest) else ([], cs)
    | [] => ([], [])
  match start.2 with
  | [] => none
  | c :: rest =>
    if c = '0' then parseNumTail (start.1 ++ [c]) rest
    else if c.isDigit then
      let p := takeDigits rest
      parseNumTail (start.1 ++ c :: p.1) p.2
    else none

mutual

/-- Parse one JSON value (after optional leading whitespace). -/
def parseVal (fuel : Nat) (cs : List Char) : Option (JsonValue × List Char) :=
  match fuel with
  | 0 => none
  | fuel + 1 =>
    match skipWs cs with
    | [] => none
    | c :: rest =>
      if c = 'n' then
        match rest with
        | c1 :: c2 :: c3 :: r =>
          if c1 = 'u' ∧ c2 = 'l' ∧ c3 = 'l' then some (.null, r) else none
        | _ => none
      else if c = 't' then
        match rest with
        | c1 :: c2 :: c3 :: r =>
          if c1 = 'r' ∧ c2 = 'u' ∧ c3 = 'e' then some (.bool true, r) else none
        | _ => none
      else if c = 'f' then
        match rest with
        | c1 :: c2 :: c3 :: c4 :: r =>
          if c1 = 'a' ∧ c2 = 'l' ∧ c3 = 's' ∧ c4 = 'e' then some (.bool false, r) else none
        | _ => none
      else if c = '"' then
        match parseStrBody (rest.length + 1) rest with
        | some (s, r) => some (.str (String.mk s), r)
        | none => none
      else if c = '[' then parseArrStart fuel rest
      else if c = lbrace then parseObjStart fuel rest
      else
        match parseNum (c :: rest) with
        | some (lex, r) => some (.num (String.mk lex), r)
        | none => none

/-- Parse an array after its opening bracket. -/
def parseArrStart (fuel : Nat) (cs : List Char) : Option (JsonValue × List Char) :=
  match fuel with
  | 0 => none
  | fuel + 1 =>
    match skipWs cs with
    | [] => none
    | c :: rest =>
      if c = ']' then some (.arr [], rest)
      else
        match parseVal fuel (c :: rest) with
        | some (v, r) => parseArrTail fuel [v] r
        | none => none

/-- Parse the remaining elements of an array, given those read so far. -/
def parseArrTail (fuel : Nat) (acc : List JsonValue) (cs : List Char) :
    Option (JsonValue × List Char) :=
  match fuel with
  | 0 => none
  | fuel + 1 =>
    match skipWs cs with
    | [] => none
    | c :: rest =>
      if c = ']' then some (.arr acc.reverse, rest)
      else if c = ',' then
        match parseVal fuel rest with
        | some (v, r) => parseArrTail fuel (v :: acc) r
        | none => none
      else none

/-- Parse one `"key": value` member of an object. -/
def parseMember (fuel : Nat) (cs : List Char) :
    Option ((String × JsonValue) × List Char) :=
  match fuel with
  | 0 => none
  | fuel + 1 =>
    match skipWs cs with
    | [] => none
    | c :: rest =>
      if c = '"' then
        match parseStrBody (rest.length + 1) rest with
        | some (k, r1) =>
          match skipWs r1 with
          | c2 :: r2 =>
            if c2 = ':' then
              match parseVal fuel r2 with
              | some (v, r3) => some ((String.mk k, v), r3)
              | none => none
            else none
          | [] => none
        | none => none
      else none

/-- Parse an object after its opening brace. -/
def parseObjStart (fuel : Nat) (cs : List Char) : Option (JsonValue × List Char) :=
  match fuel with
  | 0 => none
  | fuel + 1 =>
    match skipWs cs with
    | [] => none
    | c :: rest =>
      if c = rbrace then some (.obj [], rest)
      else
        match parseMember fuel (c :: rest) with
        | some (kv, r) => parseObjTail fuel [kv] r
        | none => none

/-- Parse the remaining members of an object, given those read so far. -/
def parseObjTail (fuel : Nat) (acc : List (String × JsonValue)) (cs : List Char) :
    Option (JsonValue × List Char) :=
  match fuel with
  | 0 => none
  | fuel + 1 =>
    match skipWs cs with
    | [] => none
    | c :: rest =>
      if c = rbrace then some (.obj acc.reverse, rest)
      else if c = ',' then
        match parseMember fuel rest with
        | some (kv, r) => parseObjTail fuel (kv :: acc) r
        | none => none
      else none

end

/-- `json.loads` (line 66 of the source): decode a string as one JSON value
with nothing but whitespace around it; any other input is a decode failure
(`json.JSONDecodeError`), modelled as `none`. -/
def jsonLoads (s : String) : Option JsonValue :=
  match parseVal (2 * s.length + 2) s.data with
  | some (v, rest) => if (skipWs rest).isEmpty then some v else none
  | none => none

/-- A parameter mapping as passed to `requests`: string keys to values that
may be `None` (Python dictionaries such as the one built by `create_report`
carry `None` values for omitted optional arguments). -/
abbrev Params := List (String × Option String)

/-- The state of a `JotformExtendedClient` instance: the four private
attributes assigned in `__init__` (lines 24 to 29). -/
structure Client where
  apiKey : String
  baseUrl : String
  internalBaseUrl : String
  isDebug : Bool
deriving Repr, DecidableEq

/-- Class attribute `SUBDOMAINS` (line 9), as an association list in source
order. -/
def SUBDOMAINS : List (String × String) :=
  [("api", "api"), ("eu", "eu-api"), ("hipaa", "hipaa-api")]

/-- Class attribute `INTERNAL_SUBDOMAINS` (line 10). -/
def INTERNAL_SUBDOMAINS : List (String × String) :=
  [("api", "www"), ("eu", "eu"), ("hipaa", "hipaa")]

/-- `__init__` (lines 12 to 29): store the key and debug flag and build the
two base URLs from the subdomain tables.  A subdomain argument that is not a
key of the tables raises `KeyError` at line 26, so no instance is produced:
this is modelled by `none`. -/
def mkClient (api_key : String) (subdomain : String) (debug : Bool) : Option Client :=
  match SUBDOMAINS.lookup subdomain, INTERNAL_SUBDOMAINS.lookup subdomain with
  | some pub, some intern =>
    some ⟨api_key,
          "https://" ++ pub ++ ".jotform.com",
          "https://" ++ intern ++ ".jotform.com/API",
          debug⟩
  | _, _ => none

/-- The outgoing HTTP request handed to `requests.request` (lines 55 to 60):
verb, full URL, headers in insertion order, query-string parameters (the
`params=` keyword argument of `requests`, which is encoded into the URL query
string for every HTTP method) and body fields (the `data=`/`json=` keyword
arguments, which `_make_request` never passes, so the body is always empty). -/
structure Request where
  method : String
  url : String
  headers : List (String × String)
  query : Option Params
  body : Option Params
deriving Repr, DecidableEq

/-- HTTP requests issued while `__init__` runs: the constructor body (lines
24 to 29) only assigns attributes and indexes the two class dictionaries; it
never calls into `requests`, so the list is empty for every input. -/
def mkClientRequests (_api_key : String) (_subdomain : String) (_debug : Bool) :
    List Request := []

/-- Request assembly in `_make_request` (lines 49 to 60): start headers with
`apiKey`; pick the base URL by the `internal` flag, adding a `referer` header
on the internal branch; pass `params` to `requests.request` only when it is
truthy (not `None` and non-empty), always as the `params=` keyword, never as
a request body. -/
def makeRequest (c : Client) (api_path : String) (method : String)
    (params : Option Params) (internal : Bool) : Request :=
  let url := if internal then c.internalBaseUrl ++ api_path else c.baseUrl ++ api_path
  let headers :=
    if internal then [("apiKey", c.apiKey), ("referer", c.internalBaseUrl)]
    else [("apiKey", c.apiKey)]
  let sendParams :=
    match params with
    | some ps => if ps.isEmpty then none else some ps
    | none => none
  ⟨method, url, headers, sendParams, none⟩

/-- Outcome of the HTTP exchange performed by `requests.request`: either the
response text, or a transport-level exception (connection failure, timeout,
TLS failure) raised by `requests`. -/
inductive Transport where
  | ok (text : String) : Transport
  | failed (msg : String) : Transport
deriving Repr, DecidableEq

/-- The two failure classes a `_make_request` call can surface: a transport
exception propagated from `requests.request`, or a `json.JSONDecodeError`
propagated from `json.loads` — distinct exception types in the source. -/
inductive DispatchError where
  | transport (msg : String) : DispatchError
  | decode : DispatchError
deriving Repr, DecidableEq

/-- Everything observable about one `_make_request` call: the client state
afterwards, the returned value or propagated error, and the lines printed to
standard output. -/
structure DispatchOut where
  client : Client
  result : Except DispatchError JsonValue
  output : List String
deriving Repr

/-- `_make_request` (lines 31 to 66) given the transport outcome `t` of its
HTTP exchange: on a transport exception nothing is printed and the exception
propagates; otherwise the debug lines (lines 62 to 64) are printed when the
flag is set, and `json.loads` either yields the return value or raises a
decode error.  The client state is returned unchanged: the method body never
assigns to `self`. -/
def dispatch (c : Client) (api_path : String) (method : String)
    (params : Option Params) (internal : Bool) (t : Transport) : DispatchOut :=
  let req := makeRequest c api_path method params internal
  match t with
  | .failed msg => ⟨c, .error (.transport msg), []⟩
  | .ok text =>
    let out := if c.isDebug then ["Request URL: " ++ req.url, "Method: " ++ method] else []
    match jsonLoads text with
    | some v => ⟨c, .ok v, out⟩
    | none => ⟨c, .error .decode, out⟩

/-- One invocation of a public endpoint method of `JotformExtendedClient`
(lines 68 to 596), one constructor per method, carrying the caller-supplied
arguments.  Path arguments typed `str | int` in the source are carried as the
string they are interpolated to; dictionary arguments typed `dict[str, str]`
are carried as string-to-string association lists. -/
inductive Endpoint where
  | get_user : Endpoint
  | get_usage : Endpoint
  | get_user_submissions : Endpoint
  | get_user_subusers : Endpoint
  | get_user_folders : Endpoint
  | get_user_reports : Endpoint
  | login (username password app_name access : String) : Endpoint
  | logout : Endpoint
  | get_user_settings : Endpoint
  | update_user_settings (settings : List (String × String)) : Endpoint
  | get_user_history : Endpoint
  | get_user_forms : Endpoint
  | create_form (form : List (String × String)) : Endpoint
  | get_form (form_id : String) : Endpoint
  | trash_form (form_id : String) : Endpoint
  | clone_form (form_id : String) : Endpoint
  | get_form_fields (form_id : String) : Endpoint
  | add_form_field (form_id : String) (field : List (String × String)) : Endpoint
  | get_form_field (form_id field_id : String) : Endpoint
  | update_form_field (form_id field_id : String)
      (field_details : List (String × String)) : Endpoint
  | delete_form_field (form_id field_id : String) : Endpoint
  | get_form_properties (form_id : String) : Endpoint
  | update_form_properties (form_id : String)
      (properties : List (String × String)) : Endpoint
  | get_form_property (form_id property : String) : Endpoint
  | get_form_reports (form_id : String) : Endpoint
  | create_report (form_id report_title report_type : String)
      (fields : Option String) : Endpoint
  | get_form_files (form_id : String) : Endpoint
  | get_form_webhooks (form_id : String) : Endpoint
  | add_form_webhook (form_id webhook_url : String) : Endpoint
  | delete_form_webhook (form_id webhook_id : String) : Endpoint
  | get_form_submissions (form_id : String) : Endpoint
  | create_submission (form_id : String)
      (submission_data : List (String × String)) : Endpoint
  | get_submission (submission_id : String) : Endpoint
  | update_submission (submission_id : String)
      (submission_data : List (String × String)) : Endpoint
  | delete_submission (submission_id : String) : Endpoint
  | get_report (report_id : String) : Endpoint
  | delete_report (report_id : String) : Endpoint
  | get_folder (folder_id : String) : Endpoint
  | create_folder (folder_name : String)
      (parent_folder_id folder_color : Option String) : Endpoint
  | delete_folder (folder_id : String) : Endpoint
  | get_plan (plan_name : String) : Endpoint
  | get_apps : Endpoint
  | get_app (app_id : String) : Endpoint
  | archive_form (form_id : String) : Endpoint
  | unarchive_form (form_id : String) : Endpoint
  | get_submission_thread (submission_id : String) : Endpoint
  | generate_pdf (form_id submission_id : String)
      (pdf_id : Option String) (download : Option String) : Endpoint
  | get_agents : Endpoint
  | get_agent (agent_id : String) : Endpoint
  | get_sender_emails : Endpoint

/-- The argument tuple one endpoint method hands to `_make_request`: path,
HTTP verb, parameter mapping and internal flag (the latter two with the
defaults `None` and `False` of `_make_request` when the call site omits
them). -/
structure RequestSpec where
  path : String
  method : String
  params : Option Params
  internal : Bool
deriving Repr, DecidableEq

/-- Lift a Python `dict[str, str]` to a parameter mapping. -/
def strParams (l : List (String × String)) : Params :=
  l.map (fun kv => (kv.1, some kv.2))

/-- The `_make_request` argument tuple of each public method, read off its
one-line body in the source (lines 68 to 596).  No call site passes the
`internal` argument, so every descriptor carries its default `false`. -/
def endpointDescriptor : Endpoint → RequestSpec
  | .get_user => ⟨"/user", "GET", none, false⟩
  | .get_usage => ⟨"/user/usage", "GET", none, false⟩
  | .get_user_submissions => ⟨"/user/submissions", "GET", none, false⟩
  | .get_user_subusers => ⟨"/user/subusers", "GET", none, false⟩
  | .get_user_folders => ⟨"/user/folders", "GET", none, false⟩
  | .get_user_reports => ⟨"/user/reports", "GET", none, false⟩
  | .login u p app acc =>
    ⟨"/user/login", "POST",
     some [("username", some u), ("password", some p),
           ("appName", some app), ("access", some acc)], false⟩
  | .logout => ⟨"/v1/user/logout", "GET", none, false⟩
  | .get_user_settings => ⟨"/user/settings", "GET", none, false⟩
  | .update_user_settings s => ⟨"/user/settings", "POST", some (strParams s), false⟩
  | .get_user_history => ⟨"/user/history", "GET", none, false⟩
  | .get_user_forms => ⟨"/user/forms", "GET", none, false⟩
  | .create_form f => ⟨"/form", "POST", some (strParams f), false⟩
  | .get_form fid => ⟨"/form/" ++ fid, "GET", none, false⟩
  | .trash_form fid => ⟨"/form/" ++ fid, "DELETE", none, false⟩
  | .clone_form fid => ⟨"/form/" ++ fid ++ "/clone", "POST", none, false⟩
  | .get_form_fields fid => ⟨"/form/" ++ fid ++ "/questions", "GET", none, false⟩
  | .add_form_field fid f =>
    ⟨"/form/" ++ fid ++ "/questions", "POST", some (strParams f), false⟩
  | .get_form_field fid qid =>
    ⟨"/form/" ++ fid ++ "/question/" ++ qid, "GET", none, false⟩
  | .update_form_field fid qid det =>
    ⟨"/form/" ++ fid ++ "/question/" ++ qid, "POST", some (strParams det), false⟩
  | .delete_form_field fid qid =>
    ⟨"/form/" ++ fid ++ "/question/" ++ qid, "DELETE", none, false⟩
  | .get_form_properties fid => ⟨"/form/" ++ fid ++ "/properties", "GET", none, false⟩
  | .update_form_properties fid props =>
    ⟨"/form/" ++ fid ++ "/properties", "POST", some (strParams props), false⟩
  | .get_form_property fid prop =>
    ⟨"/form/" ++ fid ++ "/properties/" ++ prop, "GET", none, false⟩
  | .get_form_reports fid => ⟨"/form/" ++ fid ++ "/reports", "GET", none, false⟩
  | .create_report fid title ty fields =>
    ⟨"/form/" ++ fid ++ "/reports", "POST",
     some [("title", some title), ("list_type", some ty), ("fields", fields)], false⟩
  | .get_form_files fid => ⟨"/form/" ++ fid ++ "/files", "GET", none, false⟩
  | .get_form_webhooks fid => ⟨"/form/" ++ fid ++ "/webhooks", "GET", none, false⟩
  | .add_form_webhook fid url =>
    ⟨"/form/" ++ fid ++ "/webhooks", "POST", some [("webhookURL", some url)], false⟩
  | .delete_form_webhook fid wid =>
    ⟨"/form/" ++ fid ++ "/webhooks/" ++ wid, "DELETE", none, false⟩
  | .get_form_submissions fid => ⟨"/form/" ++ fid ++ "/submissions", "GET", none, false⟩
  | .create_submission fid data =>
    ⟨"/form/" ++ fid ++ "/submissions", "POST", some (strParams data), false⟩
  | .get_submission sid => ⟨"/submission/" ++ sid, "GET", none, false⟩
  | .update_submission sid data =>
    ⟨"/submission/" ++ sid, "POST", some (strParams data), false⟩
  | .delete_submission sid => ⟨"/submission/" ++ sid, "DELETE", none, false⟩
  | .get_report rid => ⟨"/report/" ++ rid, "GET", none, false⟩
  | .delete_report rid => ⟨"/report/" ++ rid, "DELETE", none, false⟩
  | .get_folder fid => ⟨"/folder/" ++ fid, "GET", none, false⟩
  | .create_folder name parent color =>
    ⟨"/folder", "POST",
     some [("name", some name), ("parent", parent), ("color", color)], false⟩
  | .delete_folder fid => ⟨"/folder/" ++ fid, "DELETE", none, false⟩
  | .get_plan name => ⟨"/system/plan/" ++ name, "GET", none, false⟩
  | .get_apps => ⟨"/user/portals", "GET", none, false⟩
  | .get_app aid => ⟨"/portal/" ++ aid, "GET", none, false⟩
  | .archive_form fid => ⟨"/form/" ++ fid ++ "/archive?archive=1", "POST", none, false⟩
  | .unarchive_form fid => ⟨"/form/" ++ fid ++ "/archive?archive=0", "POST", none, false⟩
  | .get_submission_thread sid => ⟨"/submission/" ++ sid ++ "/thread", "GET", none, false⟩
  | .generate_pdf fid sid pdf dl =>
    ⟨"/generatePDF", "GET",
     some [("formid", some fid), ("submissionid", some sid),
           ("reportid", pdf), ("download", dl)], false⟩
  | .get_agents => ⟨"/ai-agent-builder/agents", "GET", none, false⟩
  | .get_agent aid => ⟨"/ai-agent-builder/agents/" ++ aid, "GET", none, false⟩
  | .get_sender_emails => ⟨"/smtpConfig/user/all", "GET", none, false⟩

/-- The outgoing request a public method invocation produces. -/
def endpointRequest (c : Client) (e : Endpoint) : Request :=
  let d := endpointDescriptor e
  makeRequest c d.path d.method d.params d.internal

/-- Run a public method invocation: every method body is a single delegation
to `_make_request` with its descriptor arguments. -/
def callEndpoint (c : Client) (e : Endpoint) (t : Transport) : DispatchOut :=
  let d := endpointDescriptor e
  dispatch c d.path d.method d.params d.internal t

/-- A sample client, as produced by construction with the default subdomain. -/
def c0 : Client := ⟨"key", "https://api.jotform.com", "https://www.jotform.com/API", false⟩

/-- A sample non-empty parameter mapping (the shape `login` builds). -/
def loginParams : Params := [("username", some "u"), ("password", some "pw")]

/-- The subdomain tables have exactly the keys `api`, `eu`, `hipaa`, so any
other selector fails the lookup. -/
theorem subdomain_lookup_none (s : String) (h1 : s ≠ "api") (h2 : s ≠ "eu")
    (h3 : s ≠ "hipaa") : SUBDOMAINS.lookup s = none := by
  have e1 : (s == "api") = false := beq_eq_false_iff_ne.mpr h1
  have e2 : (s == "eu") = false := beq_eq_false_iff_ne.mpr h2
  have e3 : (s == "hipaa") = false := beq_eq_false_iff_ne.mpr h3
  simp [SUBDOMAINS, List.lookup, e1, e2, e3]

/-- The dispatcher returns the client state it was given, whatever the
transport outcome and decode result. -/
theorem dispatch_client_unchanged (c : Client) (p m : String) (ps : Option Params)
    (i : Bool) (t : Transport) : (dispatch c p m ps i t).client = c := by
  cases t with
  | failed msg => rfl
  | ok text =>
    simp only [dispatch]
    split <;> rfl

/-- Whichever branch `_make_request` takes, the first header entry is the
configured API key. -/
theorem makeRequest_apiKey (c : Client) (p m : String) (ps : Option Params)
    (i : Bool) : (makeRequest c p m ps i).headers.lookup "apiKey" = some c.apiKey := by
  cases i <;> rfl

/-- Claim C1, as stated, is false on the code: the documented enumeration
names a selector `default`, but `SUBDOMAINS` has keys `api`, `eu` and
`hipaa` only, so constructing a client with the literal selector `default`
raises `KeyError` (modelled as `none`) instead of succeeding. -/
theorem construction_rejects_default_selector :
    mkClient "key" "default" false = none := rfl

/-- Claim C1 (amended): for every selector in the enumeration the code
recognizes — `api` (the default), `eu`, `hipaa` — construction succeeds and
deterministically resolves the documented base URLs: public
`https://{api|eu-api|hipaa-api}.jotform.com` and internal
`https://{www|eu|hipaa}.jotform.com/API`. -/
theorem base_url_resolution (k : String) (d : Bool) :
    mkClient k "api" d
      = some ⟨k, "https://api.jotform.com", "https://www.jotform.com/API", d⟩
    ∧ mkClient k "eu" d
      = some ⟨k, "https://eu-api.jotform.com", "https://eu.jotform.com/API", d⟩
    ∧ mkClient k "hipaa" d
      = some ⟨k, "https://hipaa-api.jotform.com", "https://hipaa.jotform.com/API", d⟩ :=
  ⟨rfl, rfl, rfl⟩

/-- Claim C2, as stated, is false on the code: a POST dispatch with a
non-empty parameter mapping does not place the mapping in the request body —
`_make_request` forwards it through the `params=` keyword of
`requests.request`, which encodes it into the URL query string for every
verb, and passes no body at all. -/
theorem post_params_not_in_body :
    (makeRequest c0 "/user/login" "POST" (some loginParams) false).body
      ≠ some loginParams
    ∧ (makeRequest c0 "/user/login" "POST" (some loginParams) false).query
      = some loginParams := by
  refine ⟨?_, rfl⟩
  intro h
  cases h

/-- Claim C2 (amended): for every dispatcher call with a non-empty parameter
mapping, the mapping is sent as the request query parameters whatever the
verb (GET, POST, PUT and DELETE alike), never as body fields; when the
mapping is empty or absent, no parameters are sent at all. -/
theorem params_sent_as_query (c : Client) (p m : String) (ps : Params) (i : Bool) :
    (makeRequest c p m (some ps) i).body = none
    ∧ (makeRequest c p m none i).query = none
    ∧ (makeRequest c p m (some []) i).query = none
    ∧ (ps ≠ [] → (makeRequest c p m (some ps) i).query = some ps) := by
  refine ⟨rfl, rfl, rfl, ?_⟩
  intro h
  cases ps with
  | nil => exact absurd rfl h
  | cons a l => rfl

/-- Witness for claim C2 (amended) at a concrete non-empty mapping. -/
theorem params_sent_as_query_witness :
    (makeRequest c0 "/user/login" "POST" (some loginParams) false).query
      = some loginParams :=
  (params_sent_as_query c0 "/user/login" "POST" loginParams false).2.2.2 (by decide)

/-- Claim C3: every public method invocation carries a header `apiKey` equal
to the key given at construction, and the API key influences neither the
request URL, nor the query parameters, nor the body: two clients differing
only in their key produce identical URLs and query parameters, and the body
is always empty. -/
theorem api_key_only_in_header (e : Endpoint) (k1 k2 b ib : String) (d : Bool) :
    (endpointRequest ⟨k1, b, ib, d⟩ e).headers.lookup "apiKey" = some k1
    ∧ (endpointRequest ⟨k1, b, ib, d⟩ e).url = (endpointRequest ⟨k2, b, ib, d⟩ e).url
    ∧ (endpointRequest ⟨k1, b, ib, d⟩ e).query = (endpointRequest ⟨k2, b, ib, d⟩ e).query
    ∧ (endpointRequest ⟨k1, b, ib, d⟩ e).body = none :=
  ⟨makeRequest_apiKey _ _ _ _ _, rfl, rfl, rfl⟩

/-- Claim C4: with the internal flag true, the URL is the internal base URL
plus the path and a `referer` header exactly equal to the internal base URL
is attached; with the flag false, the URL is the public base URL plus the
path and no `referer` header is present. -/
theorem internal_flag_url_and_referer (c : Client) (p m : String) (ps : Option Params) :
    (makeRequest c p m ps true).url = c.internalBaseUrl ++ p
    ∧ (makeRequest c p m ps true).headers.lookup "referer" = some c.internalBaseUrl
    ∧ (makeRequest c p m ps false).url = c.baseUrl ++ p
    ∧ (makeRequest c p m ps false).headers.lookup "referer" = none :=
  ⟨rfl, rfl, rfl, rfl⟩

/-- Claim C5: a datacenter selector outside the recognized enumeration fails
construction (the `KeyError` of the subdomain lookup, raised at construction
time) and the constructor issues no network request. -/
theorem unknown_selector_fails_construction (k s : String) (d : Bool)
    (h1 : s ≠ "api") (h2 : s ≠ "eu") (h3 : s ≠ "hipaa") :
    mkClient k s d = none ∧ mkClientRequests k s d = [] := by
  refine ⟨?_, rfl⟩
  unfold mkClient
  rw [subdomain_lookup_none s h1 h2 h3]

/-- Witness for claim C5 at the selector `xx` from the spec example. -/
theorem unknown_selector_fails_construction_witness :
    mkClient "key" "xx" false = none ∧ mkClientRequests "key" "xx" false = [] :=
  unknown_selector_fails_construction "key" "xx" false (by decide) (by decide) (by decide)

/-- Claim C6: when the response body decodes as JSON, the call returns
exactly the decoded value — no schema validation, filtering or coercion is
applied between `json.loads` and the caller. -/
theorem json_body_returned_verbatim (c : Client) (p m : String) (ps : Option Params)
    (i : Bool) (body : String) (v : JsonValue) (h : jsonLoads body = some v) :
    (dispatch c p m ps i (.ok body)).result = .ok v := by
  simp [dispatch, h]

/-- Witness for claim C6 at the response body from the spec example. -/
theorem json_body_returned_verbatim_witness :
    jsonLoads "\x7b\"responseCode\":200,\"content\":\x7b\"id\":\"123\"\x7d\x7d"
      = some (JsonValue.obj [("responseCode", JsonValue.num "200"),
          ("content", JsonValue.obj [("id", JsonValue.str "123")])])
    ∧ (dispatch c0 "/user" "GET" none false
        (.ok "\x7b\"responseCode\":200,\"content\":\x7b\"id\":\"123\"\x7d\x7d")).result
      = .ok (JsonValue.obj [("responseCode", JsonValue.num "200"),
          ("content", JsonValue.obj [("id", JsonValue.str "123")])]) :=
  ⟨rfl, json_body_returned_verbatim c0 "/user" "GET" none false _ _ rfl⟩

/-- Claim C7: when the response body is not valid JSON, the call fails with
the decode error, which is a different error class from every transport
error, rather than returning a value. -/
theorem invalid_json_decode_error (c : Client) (p m : String) (ps : Option Params)
    (i : Bool) (body : String) (h : jsonLoads body = none) :
    (dispatch c p m ps i (.ok body)).result = .error .decode
    ∧ ∀ msg, DispatchError.decode ≠ DispatchError.transport msg := by
  refine ⟨by simp [dispatch, h], ?_⟩
  intro msg hc
  cases hc

/-- Witness for claim C7 at a concrete non-JSON body. -/
theorem invalid_json_decode_error_witness :
    jsonLoads "not json" = none
    ∧ (dispatch c0 "/user" "GET" none false (.ok "not json")).result
      = .error .decode :=
  ⟨rfl, (invalid_json_decode_error c0 "/user" "GET" none false "not json" rfl).1⟩

/-- Claim C8: two clients identical except for the debug flag produce the
same outgoing request and the same return value on every dispatcher call;
the flag only controls whether the two diagnostic lines naming the resolved
URL and the verb are printed. -/
theorem debug_flag_noninterference (k b ib : String) (d1 d2 : Bool) (p m : String)
    (ps : Option Params) (i : Bool) (t : Transport) :
    (dispatch ⟨k, b, ib, d1⟩ p m ps i t).result
      = (dispatch ⟨k, b, ib, d2⟩ p m ps i t).result
    ∧ makeRequest ⟨k, b, ib, d1⟩ p m ps i = makeRequest ⟨k, b, ib, d2⟩ p m ps i
    ∧ (∀ text, (dispatch ⟨k, b, ib, true⟩ p m ps i (.ok text)).output
        = ["Request URL: " ++ (makeRequest ⟨k, b, ib, true⟩ p m ps i).url,
           "Method: " ++ m])
    ∧ (∀ text, (dispatch ⟨k, b, ib, false⟩ p m ps i (.ok text)).output = []) := by
  refine ⟨?_, rfl, ?_, ?_⟩
  · cases t with
    | failed msg => rfl
    | ok text => simp only [dispatch]; split <;> rfl
  · intro text; simp only [dispatch]; split <;> rfl
  · intro text; simp only [dispatch]; split <;> rfl

/-- Claim C9: the client configuration set at construction is left unchanged
by the dispatcher and by every public method invocation — the returned
client state always equals the input state. -/
theorem client_state_immutable (c : Client) (p m : String) (ps : Option Params)
    (i : Bool) (t : Transport) (e : Endpoint) :
    (dispatch c p m ps i t).client = c ∧ (callEndpoint c e t).client = c :=
  ⟨dispatch_client_unchanged c p m ps i t,
   dispatch_client_unchanged c _ _ _ _ t⟩

/-- Claim C10: every public endpoint method leaves the internal flag at its
default `false`, so its request targets the public base URL plus the path
and carries no `referer` header. -/
theorem public_methods_use_public_base (e : Endpoint) (c : Client) :
    (endpointDescriptor e).internal = false
    ∧ (endpointRequest c e).url = c.baseUrl ++ (endpointDescriptor e).path
    ∧ (endpointRequest c e).headers.lookup "referer" = none := by
  cases e <;> exact ⟨rfl, rfl, rfl⟩

end Jotform
